import Mathlib

/-!
Shallow embedding of the RadioObs observation-planning script (`src/main.py`).

The numeric computations of the script (effective area, gain, radiometer
equation) are embedded over the real numbers; the external astropy
coordinate-transform capability is modelled as an explicit function
parameter (the "transform port"), and the external date parser's civil
calendar validity check is modelled from the spec.  Python code that can
raise is embedded as `Except`-valued functions.
-/

/-- Constant `scipy.constants.pi`, used by `Telescope.effective_area`. -/
noncomputable def const_pi : ℝ := Real.pi

/-- Constant `scipy.constants.k` (Boltzmann's constant, J/K), used by `Telescope.gain`. -/
noncomputable def const_k : ℝ := 1.380649e-23

/-- Geodetic observer position (`astropy.coordinates.EarthLocation`),
kept opaque: only passed through to the transform port. -/
structure EarthLocation where
  lat : ℝ
  lon : ℝ

/-- Equatorial sky position (`astropy.coordinates.SkyCoord`),
kept opaque: only passed through to the transform port. -/
structure SkyCoord where
  ra : ℝ
  dec : ℝ

/-- The `Telescope` class of `src/main.py`: its `__init__` stores the seven
arguments unchanged; there is no validation code in the class body. -/
structure Telescope where
  name : String
  location : EarthLocation
  diameter : ℝ
  frequency : ℝ
  bandwidth : ℝ
  aperture_efficiency : ℝ
  system_temperature : ℝ

/-- Method `Telescope.effective_area` (m²):
`self.aperture_efficiency * const.pi * (self.diameter/2)**2`. -/
noncomputable def Telescope.effective_area (t : Telescope) : ℝ :=
  t.aperture_efficiency * const_pi * (t.diameter / 2) ^ 2

/-- Method `Telescope.gain` (K/Jy):
`self.effective_area()/(2*const.k)` then `*= 10**(-26)`. -/
noncomputable def Telescope.gain (t : Telescope) : ℝ :=
  t.effective_area / (2 * const_k) * (10 : ℝ) ^ (-26 : ℤ)

/-- The `Source` class of `src/main.py`: its `__init__` stores the three
arguments unchanged; there is no validation code in the class body. -/
structure Source where
  name : String
  location : SkyCoord
  flux_density : ℝ

/-- The value computed by `Source.print_integration_time` (seconds) before
printing it:
`SNR**2 * (telescope.system_temperature**2) /
  ((telescope.gain() * (self.flux_density))**2 * 2 * telescope.bandwidth*10**(6))`. -/
noncomputable def Source.print_integration_time
    (src : Source) (telescope : Telescope) (SNR : ℝ) : ℝ :=
  SNR ^ 2 * telescope.system_temperature ^ 2 /
    ((telescope.gain * src.flux_density) ^ 2 * 2 * telescope.bandwidth * 10 ^ 6)

/-- A civil calendar date (the `YYYY-MM-DD` string entered in `main`). -/
structure Date where
  year : ℤ
  month : ℕ
  day : ℕ

/-- Modelled from the spec: Gregorian leap-year rule, part of the civil
calendar date validity check that the external astropy time parser
(`astrotime.Time(date + ' 00:00:00')` in `main`) performs. -/
def isLeapYear (y : ℤ) : Bool :=
  (y % 4 == 0 && y % 100 != 0) || (y % 400 == 0)

/-- Modelled from the spec: days in each month of the civil calendar. -/
def daysInMonth (y : ℤ) (m : ℕ) : ℕ :=
  if m = 2 then (if isLeapYear y then 29 else 28)
  else if m = 4 ∨ m = 6 ∨ m = 9 ∨ m = 11 then 30
  else 31

/-- Modelled from the spec: whether the date denotes a valid civil calendar
date; this is the check the external astropy time parser performs in `main`
(raising `ValueError` on an invalid date) before `plot_altitude` is called. -/
def isValidDate (d : Date) : Bool :=
  1 ≤ d.month && d.month ≤ 12 && 1 ≤ d.day && d.day ≤ daysInMonth d.year d.month

/-- The external coordinate-transform capability used by
`Source.plot_altitude`: `(observer location, date, seconds-from-midnight,
equatorial position) ↦ altitude in degrees`.  In `src/main.py` this is
`self.location.transform_to(coords.AltAz(location=..., obstime=...)).alt.deg`. -/
def AltAzTransform : Type :=
  EarthLocation → Date → ℕ → SkyCoord → ℝ

/-- Cadence `dt = 30*60` seconds, the sampling cadence of `Source.plot_altitude`. -/
def dt : ℕ := 30 * 60

/-- The observation times of `Source.plot_altitude`, as offsets in seconds
from `date 00:00:00` UTC:
`astrotime.Time(date + ' 00:00:00', ...) + dt_astropy * np.arange(0, 86400//dt)`. -/
def observation_times : List ℕ :=
  (List.range (86400 / dt)).map (fun k => dt * k)

/-- The altitude samples gathered by `Source.plot_altitude`, one transform
call per observation time, paired with their timestamps in chronological
order (the data the function then plots). -/
def Source.plot_altitude (src : Source) (alt : AltAzTransform)
    (telescope : Telescope) (date : Date) : List (ℕ × ℝ) :=
  observation_times.map (fun ts => (ts, alt telescope.location date ts src.location))

/-- The error outcomes of `main` and of entity construction; in the script
these are signalled as `ValueError` plus a printed message. -/
inductive ObsError where
  | configurationError
  | invalidDate
  | invalidParameter

/-- Constructor `Telescope.__init__` as a fallible constructor call: its body contains
no `raise` and no validation, so it always returns the entity. -/
def telescope_init (t_name : String) (t_location : EarthLocation)
    (t_diameter t_frequency t_bandwidth t_aperture_efficiency
     t_system_temperature : ℝ) : Except ObsError Telescope :=
  Except.ok ⟨t_name, t_location, t_diameter, t_frequency, t_bandwidth,
    t_aperture_efficiency, t_system_temperature⟩

/-- Constructor `Source.__init__` as a fallible constructor call: its body contains
no `raise` and no validation, so it always returns the entity. -/
def source_init (s_name : String) (s_location : SkyCoord)
    (s_flux_density : ℝ) : Except ObsError Source :=
  Except.ok ⟨s_name, s_location, s_flux_density⟩

/-- The date/plot branch of `main`: `astrotime.Time(date + ' 00:00:00')` is
tried first — on `ValueError` the branch prints a message and returns with no
profile; only on success is `Src.plot_altitude(Tel, date)` invoked. -/
def main_altitude_branch (alt : AltAzTransform) (src : Source)
    (telescope : Telescope) (date : Date) : Except ObsError (List (ℕ × ℝ)) :=
  if isValidDate date then Except.ok (src.plot_altitude alt telescope date)
  else Except.error ObsError.invalidDate

/-- The SNR branch of `main`: `float(SNR)` is tried — on `ValueError`
(non-numeric input, modelled as `none`) the branch prints a message and
returns no value; any parsed float (modelled as `some s`) is passed to
`Src.print_integration_time(Tel, SNR)` unconditionally. -/
noncomputable def main_snr_branch (src : Source) (telescope : Telescope)
    (SNR : Option ℝ) : Except ObsError ℝ :=
  match SNR with
  | none => Except.error ObsError.invalidParameter
  | some s => Except.ok (src.print_integration_time telescope s)

/-- The example telescope configured at the top of `src/main.py`
(latitude/longitude converted from degree-minute-second to decimal degrees). -/
noncomputable def exampleTelescope : Telescope :=
  ⟨"42-ft telescope", ⟨53 + 14 / 60 + 10.5 / 3600, 2 + 18 / 60 + 25.7 / 3600⟩,
    12.8, 610, 10, 0.55, 130⟩

/-- The example source configured at the top of `src/main.py`
(right ascension in hours, declination in decimal degrees). -/
noncomputable def exampleSource : Source :=
  ⟨"B0833-45", ⟨8 + 35 / 60 + 20.6 / 3600, -(45 + 10 / 60 + 34.8 / 3600)⟩,
    1100.00 / 1000⟩

/-! ### Helper lemmas shared by several claims -/

lemma const_k_pos : 0 < const_k := by norm_num [const_k]

lemma effective_area_pos (t : Telescope) (hd : 0 < t.diameter)
    (he : 0 < t.aperture_efficiency) : 0 < t.effective_area := by
  unfold Telescope.effective_area const_pi
  exact mul_pos (mul_pos he Real.pi_pos) (pow_pos (div_pos hd two_pos) 2)

lemma gain_pos (t : Telescope) (hd : 0 < t.diameter)
    (he : 0 < t.aperture_efficiency) : 0 < t.gain := by
  unfold Telescope.gain
  have h1 : (0:ℝ) < 2 * const_k := by norm_num [const_k]
  have h2 : (0:ℝ) < (10 : ℝ) ^ (-26 : ℤ) := by positivity
  exact mul_pos (div_pos (effective_area_pos t hd he) h1) h2

/-- Projection fact: `gain` reads only `aperture_efficiency` and `diameter`, so updating
`system_temperature` leaves it unchanged. -/
lemma gain_update_system_temperature (t : Telescope) (x : ℝ) :
    ({t with system_temperature := x} : Telescope).gain = t.gain := rfl

/-- Projection fact: `gain` reads only `aperture_efficiency` and `diameter`, so updating
`bandwidth` leaves it unchanged. -/
lemma gain_update_bandwidth (t : Telescope) (x : ℝ) :
    ({t with bandwidth := x} : Telescope).gain = t.gain := rfl

lemma print_integration_time_pos (src : Source) (t : Telescope)
    (hd : 0 < t.diameter) (he : 0 < t.aperture_efficiency)
    (hb : 0 < t.bandwidth) (ht : 0 < t.system_temperature)
    (hf : 0 < src.flux_density) (s : ℝ) (hs : s ≠ 0) :
    0 < src.print_integration_time t s := by
  unfold Source.print_integration_time
  have hg := gain_pos t hd he
  positivity

/-- Scaling the flux density by `c` divides the integration time by `c²`. -/
lemma print_integration_time_flux_scaling (src : Source) (t : Telescope)
    (s c : ℝ) (hg : t.gain ≠ 0) (hf : src.flux_density ≠ 0)
    (hb : t.bandwidth ≠ 0) (hc : c ≠ 0) :
    Source.print_integration_time {src with flux_density := c * src.flux_density} t s
      = src.print_integration_time t s / c ^ 2 := by
  unfold Source.print_integration_time
  field_simp
  ring_nf
  tauto

/-! ### Claim theorems -/

/-- C5: for every telescope, `effective_area()` equals
`aperture_efficiency · π · (diameter/2)²` and is strictly positive whenever
the construction invariants hold, with no error conditions. -/
theorem c5_effective_area (t : Telescope) (hd : 0 < t.diameter)
    (he : 0 < t.aperture_efficiency) (he1 : t.aperture_efficiency ≤ 1) :
    t.effective_area = t.aperture_efficiency * Real.pi * (t.diameter / 2) ^ 2 ∧
    0 < t.effective_area :=
  ⟨rfl, effective_area_pos t hd he⟩

/-- Witness for C5 at the example telescope of `src/main.py`. -/
theorem c5_effective_area_witness :
    (0 < exampleTelescope.diameter ∧ 0 < exampleTelescope.aperture_efficiency ∧
      exampleTelescope.aperture_efficiency ≤ 1) ∧
    (exampleTelescope.effective_area
        = exampleTelescope.aperture_efficiency * Real.pi *
            (exampleTelescope.diameter / 2) ^ 2 ∧
      0 < exampleTelescope.effective_area) :=
  ⟨⟨by norm_num [exampleTelescope], by norm_num [exampleTelescope],
      by norm_num [exampleTelescope]⟩,
    c5_effective_area exampleTelescope (by norm_num [exampleTelescope])
      (by norm_num [exampleTelescope]) (by norm_num [exampleTelescope])⟩

/-- C6: for every telescope, `gain()` equals
`effective_area() / (2 · k_Boltzmann) · 10⁻²⁶` with
`k_Boltzmann = 1.380649×10⁻²³ J/K`, is side-effect-free (a pure function in
this embedding), and is strictly positive given the construction invariants. -/
theorem c6_gain (t : Telescope) (hd : 0 < t.diameter)
    (he : 0 < t.aperture_efficiency) :
    t.gain = t.effective_area / (2 * const_k) * (10 : ℝ) ^ (-26 : ℤ) ∧
    const_k = 1.380649e-23 ∧
    0 < t.gain :=
  ⟨rfl, rfl, gain_pos t hd he⟩

/-- Witness for C6 at the example telescope of `src/main.py`. -/
theorem c6_gain_witness :
    (0 < exampleTelescope.diameter ∧ 0 < exampleTelescope.aperture_efficiency) ∧
    (exampleTelescope.gain
        = exampleTelescope.effective_area / (2 * const_k) * (10 : ℝ) ^ (-26 : ℤ) ∧
      const_k = 1.380649e-23 ∧
      0 < exampleTelescope.gain) :=
  ⟨⟨by norm_num [exampleTelescope], by norm_num [exampleTelescope]⟩,
    c6_gain exampleTelescope (by norm_num [exampleTelescope])
      (by norm_num [exampleTelescope])⟩

/-- C1: for every telescope and source satisfying the data-model invariants
and every `snr_target > 0`, the computed integration time equals
`snr_target² × system_temperature² ÷ (gain()² × flux_density² × 2 ×
bandwidth_MHz × 10⁶)`, and is strictly positive. -/
theorem c1_integration_time (t : Telescope) (src : Source)
    (hd : 0 < t.diameter) (he : 0 < t.aperture_efficiency)
    (he1 : t.aperture_efficiency ≤ 1) (hb : 0 < t.bandwidth)
    (ht : 0 < t.system_temperature) (hf : 0 < src.flux_density)
    (s : ℝ) (hs : 0 < s) :
    src.print_integration_time t s
        = s ^ 2 * t.system_temperature ^ 2
            / (t.gain ^ 2 * src.flux_density ^ 2 * 2 * (t.bandwidth * 10 ^ 6)) ∧
    0 < src.print_integration_time t s := by
  constructor
  · unfold Source.print_integration_time
    congr 1
    ring
  · exact print_integration_time_pos src t hd he hb ht hf s hs.ne'

/-- Witness for C1 at the example telescope/source of `src/main.py` and
`snr_target = 10`. -/
theorem c1_integration_time_witness :
    (0 < exampleTelescope.diameter ∧ 0 < exampleTelescope.aperture_efficiency ∧
      exampleTelescope.aperture_efficiency ≤ 1 ∧ 0 < exampleTelescope.bandwidth ∧
      0 < exampleTelescope.system_temperature ∧ 0 < exampleSource.flux_density ∧
      (0 : ℝ) < 10) ∧
    (exampleSource.print_integration_time exampleTelescope 10
        = (10 : ℝ) ^ 2 * exampleTelescope.system_temperature ^ 2
            / (exampleTelescope.gain ^ 2 * exampleSource.flux_density ^ 2 * 2 *
                (exampleTelescope.bandwidth * 10 ^ 6)) ∧
      0 < exampleSource.print_integration_time exampleTelescope 10) :=
  ⟨⟨by norm_num [exampleTelescope], by norm_num [exampleTelescope],
      by norm_num [exampleTelescope], by norm_num [exampleTelescope],
      by norm_num [exampleTelescope], by norm_num [exampleSource], by norm_num⟩,
    c1_integration_time exampleTelescope exampleSource
      (by norm_num [exampleTelescope]) (by norm_num [exampleTelescope])
      (by norm_num [exampleTelescope]) (by norm_num [exampleTelescope])
      (by norm_num [exampleTelescope]) (by norm_num [exampleSource])
      10 (by norm_num)⟩

/-- C10: an SNR target of exactly 0 is accepted without error by the SNR
branch of `main` and yields an integration time of exactly 0 seconds, for
every telescope and source with positive gain, flux density and bandwidth. -/
theorem c10_zero_snr (src : Source) (t : Telescope)
    (hg : 0 < t.gain) (hf : 0 < src.flux_density) (hb : 0 < t.bandwidth) :
    main_snr_branch src t (some 0) = Except.ok (src.print_integration_time t 0) ∧
    src.print_integration_time t 0 = 0 := by
  refine ⟨rfl, ?_⟩
  unfold Source.print_integration_time
  norm_num

/-- Witness for C10 at the example telescope/source of `src/main.py`. -/
theorem c10_zero_snr_witness :
    (0 < exampleTelescope.gain ∧ 0 < exampleSource.flux_density ∧
      0 < exampleTelescope.bandwidth) ∧
    (main_snr_branch exampleSource exampleTelescope (some 0)
        = Except.ok (exampleSource.print_integration_time exampleTelescope 0) ∧
      exampleSource.print_integration_time exampleTelescope 0 = 0) :=
  ⟨⟨gain_pos exampleTelescope (by norm_num [exampleTelescope])
        (by norm_num [exampleTelescope]),
      by norm_num [exampleSource], by norm_num [exampleTelescope]⟩,
    c10_zero_snr exampleSource exampleTelescope
      (gain_pos exampleTelescope (by norm_num [exampleTelescope])
        (by norm_num [exampleTelescope]))
      (by norm_num [exampleSource]) (by norm_num [exampleTelescope])⟩

/-- C9: the integration-time computation is an even function of the SNR
target; a negative SNR target is accepted by the SNR branch of `main` and
yields the same strictly positive result as its absolute value. -/
theorem c9_even_in_snr (src : Source) (t : Telescope)
    (hd : 0 < t.diameter) (he : 0 < t.aperture_efficiency)
    (hb : 0 < t.bandwidth) (ht : 0 < t.system_temperature)
    (hf : 0 < src.flux_density) (s : ℝ) (hs : s < 0) :
    (∀ r : ℝ, src.print_integration_time t (-r) = src.print_integration_time t r) ∧
    main_snr_branch src t (some s) = Except.ok (src.print_integration_time t s) ∧
    src.print_integration_time t s = src.print_integration_time t |s| ∧
    0 < src.print_integration_time t s := by
  have heven : ∀ r : ℝ,
      src.print_integration_time t (-r) = src.print_integration_time t r := by
    intro r
    unfold Source.print_integration_time
    congr 1
    ring
  refine ⟨heven, rfl, ?_, ?_⟩
  · rw [abs_of_neg hs]
    exact (heven s).symm
  · exact print_integration_time_pos src t hd he hb ht hf s hs.ne

/-- Witness for C9 at the example telescope/source of `src/main.py` and
SNR target `-10`. -/
theorem c9_even_in_snr_witness :
    (0 < exampleTelescope.diameter ∧ 0 < exampleTelescope.aperture_efficiency ∧
      0 < exampleTelescope.bandwidth ∧ 0 < exampleTelescope.system_temperature ∧
      0 < exampleSource.flux_density ∧ (-10 : ℝ) < 0) ∧
    ((∀ r : ℝ, exampleSource.print_integration_time exampleTelescope (-r)
        = exampleSource.print_integration_time exampleTelescope r) ∧
      main_snr_branch exampleSource exampleTelescope (some (-10))
        = Except.ok (exampleSource.print_integration_time exampleTelescope (-10)) ∧
      exampleSource.print_integration_time exampleTelescope (-10)
        = exampleSource.print_integration_time exampleTelescope |(-10 : ℝ)| ∧
      0 < exampleSource.print_integration_time exampleTelescope (-10)) :=
  ⟨⟨by norm_num [exampleTelescope], by norm_num [exampleTelescope],
      by norm_num [exampleTelescope], by norm_num [exampleTelescope],
      by norm_num [exampleSource], by norm_num⟩,
    c9_even_in_snr exampleSource exampleTelescope
      (by norm_num [exampleTelescope]) (by norm_num [exampleTelescope])
      (by norm_num [exampleTelescope]) (by norm_num [exampleTelescope])
      (by norm_num [exampleSource]) (-10) (by norm_num)⟩

/-- C7 (amended): the integration time is proportional to `snr_target²` and
`system_temperature²`, and inversely proportional to `flux_density²` and to
`bandwidth`: doubling the SNR target multiplies the result by 4; scaling
`system_temperature`, `flux_density`, `bandwidth` by `c ≠ 0` rescales the
result by `c²`, `1/c²` and `1/c` respectively. -/
theorem c7_scaling_laws (t : Telescope) (src : Source) (s c : ℝ)
    (hd : 0 < t.diameter) (he : 0 < t.aperture_efficiency)
    (hb : 0 < t.bandwidth) (hf : 0 < src.flux_density) (hc : c ≠ 0) :
    src.print_integration_time t (2 * s) = 4 * src.print_integration_time t s ∧
    src.print_integration_time {t with system_temperature := c * t.system_temperature} s
      = c ^ 2 * src.print_integration_time t s ∧
    Source.print_integration_time {src with flux_density := c * src.flux_density} t s
      = src.print_integration_time t s / c ^ 2 ∧
    src.print_integration_time {t with bandwidth := c * t.bandwidth} s
      = src.print_integration_time t s / c := by
  have hg := (gain_pos t hd he).ne'
  refine ⟨?_, ?_,
    print_integration_time_flux_scaling src t s c hg hf.ne' hb.ne' hc, ?_⟩
  · unfold Source.print_integration_time
    rw [show ((2 : ℝ) * s) ^ 2 * t.system_temperature ^ 2
          = 4 * (s ^ 2 * t.system_temperature ^ 2) from by ring, mul_div_assoc]
  · simp only [Source.print_integration_time, gain_update_system_temperature]
    rw [show s ^ 2 * (c * t.system_temperature) ^ 2
          = c ^ 2 * (s ^ 2 * t.system_temperature ^ 2) from by ring, mul_div_assoc]
  · simp only [Source.print_integration_time, gain_update_bandwidth]
    rw [div_div]
    congr 1
    ring

/-- Witness for C7 at the example telescope/source of `src/main.py`,
SNR target `10` and scaling factor `c = 3`. -/
theorem c7_scaling_laws_witness :
    (0 < exampleTelescope.diameter ∧ 0 < exampleTelescope.aperture_efficiency ∧
      0 < exampleTelescope.bandwidth ∧ 0 < exampleSource.flux_density ∧
      (3 : ℝ) ≠ 0) ∧
    (exampleSource.print_integration_time exampleTelescope (2 * 10)
        = 4 * exampleSource.print_integration_time exampleTelescope 10 ∧
      exampleSource.print_integration_time
          {exampleTelescope with
            system_temperature := 3 * exampleTelescope.system_temperature} 10
        = 3 ^ 2 * exampleSource.print_integration_time exampleTelescope 10 ∧
      Source.print_integration_time
          {exampleSource with flux_density := 3 * exampleSource.flux_density}
          exampleTelescope 10
        = exampleSource.print_integration_time exampleTelescope 10 / 3 ^ 2 ∧
      exampleSource.print_integration_time
          {exampleTelescope with bandwidth := 3 * exampleTelescope.bandwidth} 10
        = exampleSource.print_integration_time exampleTelescope 10 / 3) :=
  ⟨⟨by norm_num [exampleTelescope], by norm_num [exampleTelescope],
      by norm_num [exampleTelescope], by norm_num [exampleSource], by norm_num⟩,
    c7_scaling_laws exampleTelescope exampleSource 10 3
      (by norm_num [exampleTelescope]) (by norm_num [exampleTelescope])
      (by norm_num [exampleTelescope]) (by norm_num [exampleSource])
      (by norm_num)⟩

/-- C7 counterexample: scaling the flux density by `c = 2` does not rescale
the integration time by `c² = 4` (it divides it by 4), refuting the claim's
stated flux-density scaling factor at the example telescope/source. -/
theorem c7_counterexample :
    Source.print_integration_time
        {exampleSource with flux_density := 2 * exampleSource.flux_density}
        exampleTelescope 10
      ≠ 2 ^ 2 * Source.print_integration_time exampleSource exampleTelescope 10 := by
  have hd : (0 : ℝ) < exampleTelescope.diameter := by norm_num [exampleTelescope]
  have he : (0 : ℝ) < exampleTelescope.aperture_efficiency := by
    norm_num [exampleTelescope]
  have hb : (0 : ℝ) < exampleTelescope.bandwidth := by norm_num [exampleTelescope]
  have ht : (0 : ℝ) < exampleTelescope.system_temperature := by
    norm_num [exampleTelescope]
  have hf : (0 : ℝ) < exampleSource.flux_density := by norm_num [exampleSource]
  have hpos := print_integration_time_pos exampleSource exampleTelescope
    hd he hb ht hf 10 (by norm_num)
  have hscale := print_integration_time_flux_scaling exampleSource exampleTelescope
    10 2 (gain_pos exampleTelescope hd he).ne' hf.ne' hb.ne' (by norm_num)
  rw [hscale]
  intro h
  nlinarith [hpos, h]

/-- C3 counterexample: the constructors perform no validation, so
`diameter = 0`, `aperture_efficiency = 1.5`, `system_temperature = -5` and
`flux_density = 0` are each accepted and an entity is produced, refuting the
claimed `ConfigurationError` rejection. -/
theorem c3_counterexample :
    (telescope_init "42-ft telescope" ⟨53, 2⟩ 0 610 10 0.55 130).isOk = true ∧
    (telescope_init "42-ft telescope" ⟨53, 2⟩ 12.8 610 10 1.5 130).isOk = true ∧
    (telescope_init "42-ft telescope" ⟨53, 2⟩ 12.8 610 10 0.55 (-5)).isOk = true ∧
    (source_init "B0833-45" ⟨8.5, -45.2⟩ 0).isOk = true :=
  ⟨rfl, rfl, rfl, rfl⟩

/-- C3 (amended): `Telescope.__init__` and `Source.__init__` perform no
invariant validation: construction with any parameter values succeeds and
produces an entity holding exactly the given field values; no
`ConfigurationError` is ever raised. -/
theorem c3_construction_never_fails (n : String) (loc : EarthLocation)
    (d fq b e ts : ℝ) (sn : String) (sky : SkyCoord) (fd : ℝ) :
    telescope_init n loc d fq b e ts = Except.ok ⟨n, loc, d, fq, b, e, ts⟩ ∧
    source_init sn sky fd = Except.ok ⟨sn, sky, fd⟩ :=
  ⟨rfl, rfl⟩

/-- C4 counterexample: the SNR branch of `main` accepts the numeric SNR
targets `-1` and `0` (no `InvalidParameterError`), refuting the claim that
every `snr_target ≤ 0` fails. -/
theorem c4_counterexample :
    (main_snr_branch exampleSource exampleTelescope (some (-1))).isOk = true ∧
    (main_snr_branch exampleSource exampleTelescope (some 0)).isOk = true :=
  ⟨rfl, rfl⟩

/-- C4 (amended): only a non-numeric SNR input (a failed `float` parse)
makes the SNR branch of `main` fail, with no integration-time value; every
parsed numeric SNR target, including values `≤ 0`, is accepted and yields
the computed integration time. -/
theorem c4_snr_parse_only (src : Source) (t : Telescope) (s : ℝ) :
    main_snr_branch src t none = Except.error ObsError.invalidParameter ∧
    main_snr_branch src t (some s) = Except.ok (src.print_integration_time t s) :=
  ⟨rfl, rfl⟩

/-- C2: for every valid civil date, one sampler call produces exactly 48
altitude samples, the `k`-th at timestamp `k × 1800` seconds after
`date 00:00:00` UTC for `k = 0..47` in strictly ascending order (last sample
at `47 × 1800 = 84600` s, i.e. 23:30:00, the 24:00:00 boundary excluded),
each altitude obtained by one transform-port call at that timestamp. -/
theorem c2_sampler (alt : AltAzTransform) (src : Source) (t : Telescope)
    (date : Date) (hdate : isValidDate date = true) :
    (src.plot_altitude alt t date).length = 48 ∧
    (∀ k, k < 48 → (src.plot_altitude alt t date)[k]? =
      some (1800 * k, alt t.location date (1800 * k) src.location)) ∧
    (src.plot_altitude alt t date).Pairwise (fun a b => a.1 < b.1) ∧
    observation_times.getLast? = some (47 * 1800) ∧
    ∀ x ∈ observation_times, x < 86400 := by
  refine ⟨?_, ?_, ?_, by decide, by decide⟩
  · simp [Source.plot_altitude, observation_times, dt]
  · intro k hk
    have h48 : (List.range 48)[k]? = some k := List.getElem?_range hk
    have hobs : observation_times[k]? = some (1800 * k) := by
      simp [observation_times, List.getElem?_map, dt, h48]
    simp [Source.plot_altitude, List.getElem?_map, hobs]
  · simp only [Source.plot_altitude, List.pairwise_map]
    decide

/-- Witness for C2 with a constant transform port, the example
telescope/source of `src/main.py` and the valid date 2024-03-01. -/
theorem c2_sampler_witness :
    isValidDate ⟨2024, 3, 1⟩ = true ∧
    ((exampleSource.plot_altitude (fun _ _ _ _ => 0) exampleTelescope
        ⟨2024, 3, 1⟩).length = 48 ∧
      (∀ k, k < 48 →
        (exampleSource.plot_altitude (fun _ _ _ _ => 0) exampleTelescope
            ⟨2024, 3, 1⟩)[k]? = some (1800 * k, 0)) ∧
      (exampleSource.plot_altitude (fun _ _ _ _ => 0) exampleTelescope
          ⟨2024, 3, 1⟩).Pairwise (fun a b => a.1 < b.1) ∧
      observation_times.getLast? = some (47 * 1800) ∧
      ∀ x ∈ observation_times, x < 86400) :=
  ⟨by decide,
    c2_sampler (fun _ _ _ _ => 0) exampleSource exampleTelescope ⟨2024, 3, 1⟩
      (by decide)⟩

/-- C8: an invalid civil calendar date makes the date branch of `main` fail
(InvalidDateError path) with no profile, with a result independent of the
transform port (the validation precedes any transform-port call); the invalid
date 2024-02-30 is rejected while the valid date 2024-03-01 yields a
48-sample profile. -/
theorem c8_date_validation (alt alt2 : AltAzTransform) (src : Source)
    (t : Telescope) (d : Date) (hd : isValidDate d = false) :
    main_altitude_branch alt src t d = Except.error ObsError.invalidDate ∧
    main_altitude_branch alt src t d = main_altitude_branch alt2 src t d ∧
    isValidDate ⟨2024, 2, 30⟩ = false ∧
    isValidDate ⟨2024, 3, 1⟩ = true ∧
    main_altitude_branch alt src t ⟨2024, 3, 1⟩
      = Except.ok (src.plot_altitude alt t ⟨2024, 3, 1⟩) ∧
    (src.plot_altitude alt t ⟨2024, 3, 1⟩).length = 48 := by
  have h1 : main_altitude_branch alt src t d = Except.error ObsError.invalidDate := by
    simp [main_altitude_branch, hd]
  have h2 : main_altitude_branch alt2 src t d = Except.error ObsError.invalidDate := by
    simp [main_altitude_branch, hd]
  refine ⟨h1, h1.trans h2.symm, by decide, by decide, ?_, ?_⟩
  · simp [main_altitude_branch, show isValidDate ⟨2024, 3, 1⟩ = true from by decide]
  · simp [Source.plot_altitude, observation_times, dt]

/-- Witness for C8 with two distinct constant transform ports, the example
telescope/source of `src/main.py` and the invalid date 2024-02-30. -/
theorem c8_date_validation_witness :
    isValidDate ⟨2024, 2, 30⟩ = false ∧
    (main_altitude_branch (fun _ _ _ _ => 0) exampleSource exampleTelescope
        ⟨2024, 2, 30⟩ = Except.error ObsError.invalidDate ∧
      main_altitude_branch (fun _ _ _ _ => 0) exampleSource exampleTelescope
          ⟨2024, 2, 30⟩
        = main_altitude_branch (fun _ _ _ _ => 1) exampleSource exampleTelescope
            ⟨2024, 2, 30⟩ ∧
      isValidDate ⟨2024, 2, 30⟩ = false ∧
      isValidDate ⟨2024, 3, 1⟩ = true ∧
      main_altitude_branch (fun _ _ _ _ => 0) exampleSource exampleTelescope
          ⟨2024, 3, 1⟩
        = Except.ok (exampleSource.plot_altitude (fun _ _ _ _ => 0)
            exampleTelescope ⟨2024, 3, 1⟩) ∧
      (exampleSource.plot_altitude (fun _ _ _ _ => 0) exampleTelescope
          ⟨2024, 3, 1⟩).length = 48) :=
  ⟨by decide,
    c8_date_validation (fun _ _ _ _ => 0) (fun _ _ _ _ => 1) exampleSource
      exampleTelescope ⟨2024, 2, 30⟩ (by decide)⟩
